import Mathlib

/-!
Shallow embedding of the orchestration core of the agentic invoice-processing
repository, together with theorems settling the frozen claims about it.

Sources embedded (Python → Lean):
* `src/agents/validation_agent.py` — `_calculate_validation_score`, the
  status update in `ValidationAgent.process`;
* `src/agents/regional_compliance_agent.py` — `_calculate_compliance_score`,
  the status update in `RegionalComplianceAgent.process`;
* `src/agents/approval_agent.py` — `_check_critical_errors`,
  `_evaluate_confidence`, `_evaluate_compliance`, `_check_approval_authority`,
  `_evaluate_validation`, `_make_approval_decision`, `_apply_approval_decision`;
* `src/agents/base_agent.py` — `BaseAgent.execute` (retry loop + statistics);
* `src/orchestrator/workflow_manager.py` — `WorkflowStep.should_execute`,
  `_check_high_confidence`, `_define_workflows`, the step loop of
  `execute_workflow`, `_determine_workflow_status`;
* `src/models/processing_result.py` — `ProcessingResult`;
* `src/models/invoice_model.py` — `ProcessingStatus`, the slice of `Invoice`
  the orchestration core reads and writes.

Python floats are modelled by `ℚ` (the numeric literals of the source are
exactly representable and the claims concern order/equality facts that the
rational model states exactly).  Wall-clock quantities (`time.time()`,
`datetime.now()`, `processing_time`) are outside the model; fields holding
them are omitted.  Python dict-based records become structures; `dict.get`
with a default becomes `Option.getD` or an `Option` match.
-/

/-- Status of a single validation / compliance check entry
(the `status` key of the check dictionaries produced by the agents). -/
inductive CheckStatus where
  | pass
  | warning
  | error
  | info
deriving DecidableEq, Repr

/-- Severity of a check entry (the `severity` key). -/
inductive Severity where
  | low
  | medium
  | high
deriving DecidableEq, Repr

/-- One check-outcome entry, as produced by the validation and compliance
agents and consumed by the scoring functions and the approval agent. -/
structure Check where
  status : CheckStatus
  severity : Severity
  message : String
deriving DecidableEq, Repr

/-- Severity weight used by both scoring functions:
`{"low": 1.0, "medium": 2.0, "high": 3.0}`. -/
def severityWeight : Severity → ℚ
  | .low => 1
  | .medium => 2
  | .high => 3

/-- Per-status score factor of the scoring loops: `pass` contributes the full
weight, `warning` contributes `weight * 0.7`, every other status (`error`,
and for the validation scorer also `info`) contributes nothing to the
numerator. -/
def statusFactor : CheckStatus → ℚ
  | .pass => 1
  | .warning => 7/10
  | .error => 0
  | .info => 0

/-- Embedding of `ValidationAgent._calculate_validation_score`
(`src/agents/validation_agent.py:439-462`).  Every entry — `info` included —
adds its severity weight to `max_score`; only `pass`/`warning` add to
`total_score`; empty input and a zero denominator return `0.0`. -/
def calculate_validation_score (validation_results : List Check) : ℚ :=
  if validation_results.isEmpty then 0
  else
    let max_score := (validation_results.map fun c => severityWeight c.severity).sum
    let total_score :=
      (validation_results.map fun c => severityWeight c.severity * statusFactor c.status).sum
    if 0 < max_score then total_score / max_score else 0

/-- Denominator contribution of one entry in
`RegionalComplianceAgent._calculate_compliance_score`: `info` entries are
skipped (`continue`), every other entry adds its severity weight. -/
def complianceWeight (c : Check) : ℚ :=
  match c.status with
  | .info => 0
  | _ => severityWeight c.severity

/-- Numerator contribution of one entry in
`RegionalComplianceAgent._calculate_compliance_score`. -/
def complianceContrib (c : Check) : ℚ :=
  match c.status with
  | .info => 0
  | s => severityWeight c.severity * statusFactor s

/-- Embedding of `RegionalComplianceAgent._calculate_compliance_score`
(`src/agents/regional_compliance_agent.py:400-427`).  Unlike the validation
scorer it skips `info` entries entirely, and a zero denominator (non-empty
input, all entries `info`) returns `1.0`; empty input returns `0.0`. -/
def calculate_compliance_score (compliance_results : List Check) : ℚ :=
  if compliance_results.isEmpty then 0
  else
    let max_score := (compliance_results.map complianceWeight).sum
    let total_score := (compliance_results.map complianceContrib).sum
    if 0 < max_score then total_score / max_score else 1

example : calculate_validation_score
    [⟨.pass, .low, "a"⟩, ⟨.warning, .medium, "b"⟩, ⟨.error, .high, "c"⟩] = 4/10 := by
  norm_num [calculate_validation_score, severityWeight, statusFactor, List.sum_cons]

example : calculate_compliance_score
    [⟨.pass, .low, "a"⟩, ⟨.warning, .medium, "b"⟩, ⟨.error, .high, "c"⟩] = 4/10 := by
  norm_num [calculate_compliance_score, complianceWeight, complianceContrib,
    severityWeight, statusFactor, List.sum_cons]

/-! Elementary facts about the per-check quantities. -/

theorem severityWeight_pos (s : Severity) : 0 < severityWeight s := by
  cases s <;> norm_num [severityWeight]

theorem one_le_severityWeight (s : Severity) : 1 ≤ severityWeight s := by
  cases s <;> norm_num [severityWeight]

theorem statusFactor_nonneg (s : CheckStatus) : 0 ≤ statusFactor s := by
  cases s <;> norm_num [statusFactor]

theorem statusFactor_le_one (s : CheckStatus) : statusFactor s ≤ 1 := by
  cases s <;> norm_num [statusFactor]

theorem validationContrib_nonneg (c : Check) :
    0 ≤ severityWeight c.severity * statusFactor c.status :=
  mul_nonneg (severityWeight_pos c.severity).le (statusFactor_nonneg c.status)

theorem validationContrib_le_weight (c : Check) :
    severityWeight c.severity * statusFactor c.status ≤ severityWeight c.severity :=
  mul_le_of_le_one_right (severityWeight_pos c.severity).le (statusFactor_le_one c.status)

theorem complianceWeight_nonneg (c : Check) : 0 ≤ complianceWeight c := by
  cases h : c.status <;>
    simp [complianceWeight, h, (severityWeight_pos c.severity).le]

theorem complianceContrib_nonneg (c : Check) : 0 ≤ complianceContrib c := by
  cases h : c.status <;> simp [complianceContrib, h] <;>
    exact mul_nonneg (severityWeight_pos c.severity).le (statusFactor_nonneg _)

theorem complianceContrib_le_weight (c : Check) : complianceContrib c ≤ complianceWeight c := by
  cases h : c.status <;> simp [complianceContrib, complianceWeight, h] <;>
    exact mul_le_of_le_one_right (severityWeight_pos c.severity).le (statusFactor_le_one _)

/-! Facts about the summed numerators and denominators. -/

theorem validation_total_nonneg (l : List Check) :
    0 ≤ (l.map fun c => severityWeight c.severity * statusFactor c.status).sum :=
  List.sum_nonneg fun x hx => by
    obtain ⟨c, -, rfl⟩ := List.mem_map.1 hx
    exact validationContrib_nonneg c

theorem validation_total_le_max (l : List Check) :
    (l.map fun c => severityWeight c.severity * statusFactor c.status).sum ≤
      (l.map fun c => severityWeight c.severity).sum :=
  List.sum_le_sum fun c _ => validationContrib_le_weight c

theorem validation_max_nonneg (l : List Check) :
    0 ≤ (l.map fun c => severityWeight c.severity).sum :=
  List.sum_nonneg fun x hx => by
    obtain ⟨c, -, rfl⟩ := List.mem_map.1 hx
    exact (severityWeight_pos c.severity).le

theorem validation_max_pos {l : List Check} (h : l ≠ []) :
    0 < (l.map fun c => severityWeight c.severity).sum := by
  cases l with
  | nil => exact absurd rfl h
  | cons c cs =>
    rw [List.map_cons, List.sum_cons]
    exact add_pos_of_pos_of_nonneg (severityWeight_pos c.severity) (validation_max_nonneg cs)

theorem compliance_total_nonneg (l : List Check) : 0 ≤ (l.map complianceContrib).sum :=
  List.sum_nonneg fun x hx => by
    obtain ⟨c, -, rfl⟩ := List.mem_map.1 hx
    exact complianceContrib_nonneg c

theorem compliance_total_le_max (l : List Check) :
    (l.map complianceContrib).sum ≤ (l.map complianceWeight).sum :=
  List.sum_le_sum fun c _ => complianceContrib_le_weight c

theorem compliance_max_nonneg (l : List Check) : 0 ≤ (l.map complianceWeight).sum :=
  List.sum_nonneg fun x hx => by
    obtain ⟨c, -, rfl⟩ := List.mem_map.1 hx
    exact complianceWeight_nonneg c

/-- Core ratio inequality behind the append-a-pass monotonicity: growing the
numerator and the denominator by the same positive amount cannot shrink a
ratio that is at most one. -/
theorem div_le_div_add_same {S M w : ℚ} (hSM : S ≤ M) (hM : 0 < M)
    (hw : 0 < w) : S / M ≤ (S + w) / (M + w) := by
  rw [div_le_div_iff₀ hM (by linarith)]
  nlinarith

/-- C8: for every check-outcome list, both severity-weighted scoring functions
return a value in the closed interval `[0, 1]`. -/
theorem scoring_functions_in_unit_interval (l : List Check) :
    0 ≤ calculate_validation_score l ∧ calculate_validation_score l ≤ 1 ∧
    0 ≤ calculate_compliance_score l ∧ calculate_compliance_score l ≤ 1 := by
  unfold calculate_validation_score calculate_compliance_score
  by_cases hl : l.isEmpty
  · simp [hl]
  · simp only [hl, if_false, Bool.false_eq_true]
    refine ⟨?_, ?_, ?_, ?_⟩
    · split
      · exact div_nonneg (validation_total_nonneg l) (validation_max_nonneg l)
      · exact le_refl 0
    · split
      · rename_i hpos
        exact (div_le_one hpos).2 (validation_total_le_max l)
      · exact zero_le_one
    · split
      · exact div_nonneg (compliance_total_nonneg l) (compliance_max_nonneg l)
      · exact zero_le_one
    · split
      · rename_i hpos
        exact (div_le_one hpos).2 (compliance_total_le_max l)
      · exact le_refl 1


/-- Evaluation of the validation scorer on the empty list. -/
theorem calculate_validation_score_nil : calculate_validation_score [] = 0 := rfl

/-- Evaluation of the compliance scorer on the empty list. -/
theorem calculate_compliance_score_nil : calculate_compliance_score [] = 0 := rfl

/-- On a non-empty list the validation scorer is the ratio of the status-scored
sum to the severity-weight sum (the denominator is positive, every severity
weight being at least one). -/
theorem calculate_validation_score_ne_nil {l : List Check} (h : l ≠ []) :
    calculate_validation_score l =
      (l.map fun c => severityWeight c.severity * statusFactor c.status).sum /
        (l.map fun c => severityWeight c.severity).sum := by
  have hne : l.isEmpty = false := by simpa [List.isEmpty_iff] using h
  simp only [calculate_validation_score, hne, Bool.false_eq_true, if_false,
    if_pos (validation_max_pos h)]

/-- On a non-empty list the compliance scorer is the corresponding ratio when
the (info-skipping) denominator is positive, and `1` otherwise. -/
theorem calculate_compliance_score_ne_nil {l : List Check} (h : l ≠ []) :
    calculate_compliance_score l =
      if 0 < (l.map complianceWeight).sum then
        (l.map complianceContrib).sum / (l.map complianceWeight).sum
      else 1 := by
  have hne : l.isEmpty = false := by simpa [List.isEmpty_iff] using h
  simp only [calculate_compliance_score, hne, Bool.false_eq_true, if_false]

theorem validation_append_pass (l : List Check) (s : Severity) (m : String) :
    calculate_validation_score l ≤ calculate_validation_score (l ++ [⟨.pass, s, m⟩]) := by
  have hw := severityWeight_pos s
  by_cases hl : l = []
  · subst hl
    rw [calculate_validation_score_nil, calculate_validation_score_ne_nil (by simp)]
    exact div_nonneg (validation_total_nonneg _) (validation_max_nonneg _)
  · rw [calculate_validation_score_ne_nil hl, calculate_validation_score_ne_nil (by simp),
      List.map_append, List.map_append, List.sum_append, List.sum_append]
    simp only [List.map_cons, List.map_nil, List.sum_cons, List.sum_nil, add_zero]
    have h1 : statusFactor CheckStatus.pass = 1 := rfl
    rw [h1, mul_one]
    exact div_le_div_add_same (validation_total_le_max l) (validation_max_pos hl) hw

theorem compliance_append_pass (l : List Check) (s : Severity) (m : String) :
    calculate_compliance_score l ≤ calculate_compliance_score (l ++ [⟨.pass, s, m⟩]) := by
  have hw := severityWeight_pos s
  have h1 : complianceContrib ⟨.pass, s, m⟩ = severityWeight s := by
    simp [complianceContrib, statusFactor]
  have h2 : complianceWeight ⟨.pass, s, m⟩ = severityWeight s := rfl
  by_cases hl : l = []
  · subst hl
    rw [calculate_compliance_score_nil, calculate_compliance_score_ne_nil (by simp)]
    split
    · exact div_nonneg (compliance_total_nonneg _) (compliance_max_nonneg _)
    · exact zero_le_one
  · rw [calculate_compliance_score_ne_nil hl, calculate_compliance_score_ne_nil (by simp),
      List.map_append, List.map_append, List.sum_append, List.sum_append]
    simp only [List.map_cons, List.map_nil, List.sum_cons, List.sum_nil, add_zero, h1, h2]
    by_cases hM : 0 < (l.map complianceWeight).sum
    · rw [if_pos hM, if_pos (by linarith)]
      exact div_le_div_add_same (compliance_total_le_max l) hM hw
    · have hM0 : (l.map complianceWeight).sum = 0 :=
        le_antisymm (not_lt.1 hM) (compliance_max_nonneg l)
      have hS0 : (l.map complianceContrib).sum = 0 :=
        le_antisymm (hM0 ▸ compliance_total_le_max l) (compliance_total_nonneg l)
      rw [if_neg hM, hM0, hS0]
      simp [hw, div_self hw.ne']

/-- C9: appending a passing check (of any severity) to any check-outcome list
never decreases the score, for both the validation and the compliance
scoring functions. -/
theorem append_pass_never_decreases_score (l : List Check) (s : Severity) (m : String) :
    calculate_validation_score l ≤ calculate_validation_score (l ++ [⟨.pass, s, m⟩]) ∧
    calculate_compliance_score l ≤ calculate_compliance_score (l ++ [⟨.pass, s, m⟩]) :=
  ⟨validation_append_pass l s m, compliance_append_pass l s m⟩

/-- C4 counterexample: an `info` entry is not neutral for every scorer and
every list.  The validation scorer counts the info entry's severity weight in
the denominator, dropping the score of `[pass(low)]` from `1` to `1/2`, and
the compliance scorer maps the empty list to `0` but the pure-info list to
`1`. -/
theorem info_entry_changes_score :
    calculate_validation_score [⟨.pass, .low, "ok"⟩, ⟨.info, .low, "note"⟩] ≠
      calculate_validation_score [⟨.pass, .low, "ok"⟩] ∧
    calculate_compliance_score [⟨.info, .low, "note"⟩] ≠ calculate_compliance_score [] := by
  constructor
  · rw [calculate_validation_score_ne_nil (by simp),
      calculate_validation_score_ne_nil (by simp)]
    norm_num [severityWeight, statusFactor, List.sum_cons]
  · rw [calculate_compliance_score_ne_nil (by simp), calculate_compliance_score_nil]
    norm_num [complianceWeight, complianceContrib, List.sum_cons]

/-- C4 amended: only the compliance scorer excludes `info` entries from both
numerator and denominator, and only on non-empty lists is insertion of an
`info` entry guaranteed to leave its score unchanged; the validation scorer
adds an info entry's severity weight to the denominator (and nothing to the
numerator), so there an insertion can change the score. -/
theorem compliance_score_ignores_info_insertion (l1 l2 : List Check) (s : Severity)
    (m : String) (h : l1 ++ l2 ≠ []) :
    calculate_compliance_score (l1 ++ ⟨.info, s, m⟩ :: l2) =
      calculate_compliance_score (l1 ++ l2) := by
  have hwc : complianceWeight ⟨.info, s, m⟩ = 0 := rfl
  have hcc : complianceContrib ⟨.info, s, m⟩ = 0 := rfl
  have h1 : (l1 ++ ⟨.info, s, m⟩ :: l2) ≠ [] := by simp
  rw [calculate_compliance_score_ne_nil h1, calculate_compliance_score_ne_nil h]
  simp [List.map_append, List.sum_append, hwc, hcc]

/-- Witness for the amended C4 theorem: inserting an `info(high)` entry after
a `pass(low)` check leaves the compliance score unchanged. -/
theorem compliance_score_ignores_info_insertion_witness :
    calculate_compliance_score [⟨.pass, .low, "ok"⟩, ⟨.info, .high, "note"⟩] =
      calculate_compliance_score [⟨.pass, .low, "ok"⟩] :=
  compliance_score_ignores_info_insertion [⟨.pass, .low, "ok"⟩] [] .high "note" (by simp)

/-- Invoice processing status enumeration
(`src/models/invoice_model.py:9-15`). -/
inductive ProcessingStatus where
  | pending
  | processing
  | validated
  | approved
  | rejected
  | error
deriving DecidableEq, Repr

/-- Slice of the `Invoice` object (`src/models/invoice_model.py`) that the
orchestration core reads and writes.  `confidence_score` is `Optional` in the
source; `processed_at` (a wall-clock timestamp) is outside the model. -/
structure Invoice where
  invoice_number : String
  total_amount : ℚ
  confidence_score : Option ℚ
  processing_status : ProcessingStatus
  processed_by : Option String
deriving DecidableEq, Repr

/-- Embedding of `ProcessingResult` (`src/models/processing_result.py`).
`processing_steps` keeps the `action` labels passed to
`add_processing_step`; the wall-clock `timestamp` of each step and the
`processing_time` measurement are outside the model. -/
structure ProcessingResult where
  confidence_score : ℚ := 0
  errors : List String := []
  warnings : List String := []
  processing_steps : List String := []
deriving DecidableEq, Repr

/-- Attribute names a `ProcessingResult` instance carries in Python: the five
fields assigned in `__init__` plus the class methods.  This is the universe
`hasattr` tests against for such objects; no code path ever assigns any
further attribute to a `ProcessingResult`. -/
def processingResultAttrs : List String :=
  ["confidence_score", "errors", "warnings", "processing_steps", "processing_time",
   "add_error", "add_warning", "add_processing_step", "is_successful", "get_summary"]

/-- Python `hasattr(processing_result, attr)`. -/
def hasattrProcessingResult (attr : String) : Bool :=
  processingResultAttrs.contains attr

/-- Default of `settings.AUTO_APPROVE_THRESHOLD` (`src/config/settings.py:42`). -/
def AUTO_APPROVE_THRESHOLD : ℚ := 95/100

/-- Default of `settings.VALIDATION_THRESHOLD` (`src/config/settings.py:41`):
the review threshold of the approval agent's confidence rule. -/
def VALIDATION_THRESHOLD : ℚ := 75/100

/-- The `approval_info` record the compliance agent stores in context
(`_determine_approval_requirements`), as read by
`ApprovalAgent._check_approval_authority`; `none` models an absent/empty
dict. -/
structure ApprovalInfo where
  approval_level : String
  required_approver : String
deriving DecidableEq, Repr

/-- The factors gathered by `ApprovalAgent._gather_approval_factors` that its
decision rules actually read.  `confidence_score` is the invoice's confidence
score (a present numeric value: a `None` value would raise a `TypeError` in
`_evaluate_confidence` and abort the stage before any decision is made);
`processing_status` is the invoice status string recorded in the factors. -/
structure ApprovalFactors where
  confidence_score : ℚ
  processing_status : ProcessingStatus
  validation_results : List Check
  compliance_results : List Check
  approval_info : Option ApprovalInfo
deriving DecidableEq, Repr

/-- Embedding of `ApprovalAgent._check_critical_errors`
(`src/agents/approval_agent.py:217-234`). -/
def check_critical_errors (f : ApprovalFactors) : List String :=
  ((f.validation_results ++ f.compliance_results).filter
      (fun c => c.status == CheckStatus.error && c.severity == Severity.high)).map
    (fun c => c.message)
  ++ (if f.processing_status = ProcessingStatus.error then
        ["Invoice processing resulted in error status"]
      else [])

/-- Result shape of `ApprovalAgent._evaluate_confidence`. -/
structure ConfidenceChecks where
  passed : Bool
  manual_review_recommended : Bool
deriving DecidableEq, Repr

/-- Embedding of `ApprovalAgent._evaluate_confidence`
(`src/agents/approval_agent.py:236-254`): at or above the auto-approve
threshold ⇒ passed; at or above the validation (review) threshold ⇒ passed
with `manual_review_recommended`; below ⇒ not passed.  Note that
`manual_review_recommended` is only ever `true` together with
`passed = true`. -/
def evaluate_confidence (f : ApprovalFactors) : ConfidenceChecks :=
  if AUTO_APPROVE_THRESHOLD ≤ f.confidence_score then ⟨true, false⟩
  else if VALIDATION_THRESHOLD ≤ f.confidence_score then ⟨true, true⟩
  else ⟨false, false⟩

/-- Result shape of `ApprovalAgent._evaluate_compliance`. -/
structure ComplianceChecks where
  passed : Bool
  issues : List String
  warnings : List String
deriving DecidableEq, Repr

/-- Embedding of `ApprovalAgent._evaluate_compliance`
(`src/agents/approval_agent.py:256-281`). -/
def evaluate_compliance (f : ApprovalFactors) : ComplianceChecks :=
  f.compliance_results.foldl
    (fun acc c =>
      match c.status with
      | .error =>
        if c.severity = .high then
          { acc with passed := false, issues := acc.issues ++ [c.message] }
        else { acc with warnings := acc.warnings ++ [c.message] }
      | .warning => { acc with warnings := acc.warnings ++ [c.message] }
      | _ => acc)
    ⟨true, [], []⟩

/-- Result shape of `ApprovalAgent._check_approval_authority`. -/
structure AuthorityChecks where
  requires_manual : Bool
  level : String
  required_approver : String
deriving DecidableEq, Repr

/-- Embedding of `ApprovalAgent._check_approval_authority`
(`src/agents/approval_agent.py:283-305`). -/
def check_approval_authority (f : ApprovalFactors) : AuthorityChecks :=
  match f.approval_info with
  | none => ⟨false, "auto", "system"⟩
  | some info =>
    if info.approval_level ≠ "auto" then
      ⟨true, info.approval_level, info.required_approver⟩
    else ⟨false, "auto", "system"⟩

/-- Result shape of `ApprovalAgent._evaluate_validation`. -/
structure ValidationChecks where
  passed : Bool
  warnings : List String
  severe : Bool
deriving DecidableEq, Repr

/-- Embedding of `ApprovalAgent._evaluate_validation`
(`src/agents/approval_agent.py:307-342`): counts error/warning entries,
marks `severe` (and fails) on any high-severity error or on more than five
errors or more than ten warnings. -/
def evaluate_validation (f : ApprovalFactors) : ValidationChecks :=
  let folded := f.validation_results.foldl
    (fun (acc : ValidationChecks × Nat × Nat) c =>
      let (r, error_count, warning_count) := acc
      match c.status with
      | .error =>
        let r := if c.severity = .high then { r with severe := true, passed := false } else r
        ({ r with warnings := r.warnings ++ [c.message] }, error_count + 1, warning_count)
      | .warning =>
        ({ r with warnings := r.warnings ++ [c.message] }, error_count, warning_count + 1)
      | _ => acc)
    (⟨true, [], false⟩, 0, 0)
  let (r, error_count, warning_count) := folded
  if 5 < error_count ∨ 10 < warning_count then
    { r with
      severe := true
      passed := false
      warnings := r.warnings ++ ["Too many validation issues detected"] }
  else r

/-- Outcome values of the `decision` key of an approval decision. -/
inductive DecisionKind where
  | approved
  | rejected
  | manual_review
deriving DecidableEq, Repr

/-- The approval decision record built by
`ApprovalAgent._make_approval_decision`; the wall-clock `timestamp` key is
outside the model. -/
structure ApprovalDecision where
  decision : DecisionKind
  reason : String
  approver : String
  factors_considered : List String
  warnings : List String
  requires_manual_review : Bool
deriving DecidableEq, Repr

/-- Embedding of `ApprovalAgent._make_approval_decision`
(`src/agents/approval_agent.py:124-215`): the ordered rule chain
critical errors → confidence → compliance → approval authority →
validation quality → default approve, returning at the first rule that
fires. -/
def make_approval_decision (f : ApprovalFactors) : ApprovalDecision :=
  let d0 : ApprovalDecision :=
    ⟨.rejected, "Initial state", "system", [], [], false⟩
  let critical_errors := check_critical_errors f
  if critical_errors ≠ [] then
    { d0 with
      decision := .rejected
      reason := "Critical errors found: " ++ String.intercalate ", " critical_errors
      factors_considered := ["critical_errors"] }
  else
    let confidence_checks := evaluate_confidence f
    let d1 := { d0 with
      factors_considered := d0.factors_considered ++ ["confidence_evaluation"] }
    if confidence_checks.passed = false then
      if confidence_checks.manual_review_recommended then
        { d1 with
          decision := .manual_review
          reason := "Low confidence scores require manual review"
          requires_manual_review := true }
      else
        { d1 with
          decision := .rejected
          reason := "Confidence scores below acceptable threshold" }
    else
      let compliance_checks := evaluate_compliance f
      let d2 := { d1 with
        factors_considered := d1.factors_considered ++ ["compliance_evaluation"] }
      if compliance_checks.passed = false then
        { d2 with
          decision := .rejected
          reason := "Compliance requirements not met"
          warnings := compliance_checks.issues }
      else
        let approval_authority := check_approval_authority f
        let d3 := { d2 with
          factors_considered := d2.factors_considered ++ ["approval_authority"] }
        if approval_authority.requires_manual then
          { d3 with
            decision := .manual_review
            reason := "Amount requires " ++ approval_authority.level ++ " approval"
            approver := approval_authority.required_approver
            requires_manual_review := true }
        else
          let validation_checks := evaluate_validation f
          let d4 := { d3 with
            factors_considered := d3.factors_considered ++ ["validation_evaluation"] }
          let d5 :=
            if validation_checks.passed = false then
              { d4 with warnings := d4.warnings ++ validation_checks.warnings }
            else d4
          if validation_checks.passed = false ∧ validation_checks.severe then
            { d5 with decision := .rejected, reason := "Severe validation issues found" }
          else
            let d6 := { d5 with
              decision := .approved
              reason := "All validation and compliance checks passed"
              approver := "system" }
            { d6 with
              warnings := d6.warnings ++ validation_checks.warnings
                ++ compliance_checks.warnings }

/-- Embedding of `ApprovalAgent._apply_approval_decision`
(`src/agents/approval_agent.py:344-358`): `approved`/`rejected` set the
corresponding terminal status, `manual_review` keeps the current status; the
processed-by marker is stamped in every case (the agent's display name is
"Approval Agent"). -/
def apply_approval_decision (invoice : Invoice) (decision : ApprovalDecision) : Invoice :=
  let invoice :=
    match decision.decision with
    | .approved => { invoice with processing_status := .approved }
    | .rejected => { invoice with processing_status := .rejected }
    | .manual_review => invoice
  { invoice with processed_by := some "Approval Agent_agent" }

/-- Embedding of `WorkflowManager._determine_workflow_status`
(`src/orchestrator/workflow_manager.py:260-282`): any failed step ⇒
"failed"; else a terminal invoice status maps to "approved"/"rejected"/
"failed"; else "pending_review" when the approval stage produced a result
object that has a `requires_manual_review` attribute (tested with Python
`hasattr`); else "completed". -/
def determine_workflow_status (failed_steps : Nat) (invoice : Option Invoice)
    (approval_result : Option ProcessingResult) : String :=
  if 0 < failed_steps then "failed"
  else
    let terminal : Option String :=
      match invoice with
      | some inv =>
        match inv.processing_status with
        | .approved => some "approved"
        | .rejected => some "rejected"
        | .error => some "failed"
        | _ => none
      | none => none
    match terminal with
    | some s => s
    | none =>
      if approval_result.isSome && hasattrProcessingResult "requires_manual_review" then
        "pending_review"
      else "completed"

/-- A `ProcessingResult` never carries a `requires_manual_review` attribute
(the flag lives in the `approval_decision` dict stored in the run context,
not on the result object), so the `hasattr` test in
`_determine_workflow_status` can never succeed. -/
theorem hasattr_requires_manual_review_false :
    hasattrProcessingResult "requires_manual_review" = false := by
  decide

/-- C2 failing input: no critical check (no status=error/severity=high entry,
invoice status not error) and invoice confidence 0.8, which lies at or above
the review threshold 0.75 and below the auto-approve threshold 0.95. -/
def c2_factors : ApprovalFactors :=
  { confidence_score := 8/10
    processing_status := ProcessingStatus.validated
    validation_results := []
    compliance_results := []
    approval_info := none }

/-- C2: at the failing input the confidence rule reports
`passed = true, manual_review_recommended = true`, so the escalation branch
(which requires `passed = false`) cannot fire and the chain runs on to the
default rule, approving instead of escalating to manual review. -/
theorem mid_confidence_not_escalated :
    evaluate_confidence c2_factors = ⟨true, true⟩ ∧
    (make_approval_decision c2_factors).decision = DecisionKind.approved ∧
    (make_approval_decision c2_factors).requires_manual_review = false ∧
    (make_approval_decision c2_factors).factors_considered =
      ["confidence_evaluation", "compliance_evaluation", "approval_authority",
       "validation_evaluation"] := by
  have h : evaluate_confidence c2_factors = ⟨true, true⟩ := by
    rw [evaluate_confidence]
    norm_num [c2_factors, AUTO_APPROVE_THRESHOLD, VALIDATION_THRESHOLD]
  have h0 : check_critical_errors c2_factors = [] := by
    simp [check_critical_errors, c2_factors]
  have h2 : evaluate_compliance c2_factors = ⟨true, [], []⟩ := by
    simp [evaluate_compliance, c2_factors]
  have h3 : check_approval_authority c2_factors = ⟨false, "auto", "system"⟩ := by
    simp [check_approval_authority, c2_factors]
  have h4 : evaluate_validation c2_factors = ⟨true, [], false⟩ := by
    simp [evaluate_validation, c2_factors]
  refine ⟨h, ?_, ?_, ?_⟩ <;> simp [make_approval_decision, h, h0, h2, h3, h4]

/-- C3 failing input, approval factors: high confidence but an
`approval_info` requiring manager-level sign-off, which drives the authority
rule to a `manual_review` decision. -/
def c3_factors : ApprovalFactors :=
  { confidence_score := 96/100
    processing_status := ProcessingStatus.validated
    validation_results := []
    compliance_results := []
    approval_info := some ⟨"manager", "manager"⟩ }

/-- C3 failing input, the invoice at the time the approval stage runs. -/
def c3_invoice : Invoice :=
  { invoice_number := "INV-001"
    total_amount := 60000
    confidence_score := some (96/100)
    processing_status := ProcessingStatus.validated
    processed_by := none }

/-- The approval stage's `ProcessingResult` for the C3 run (its field values
are irrelevant: only its presence and its attribute set are consulted). -/
def c3_approval_result : ProcessingResult := {}

/-- C3: a run whose approval decision requires manual review (authority
rule), with no failed step and a non-terminal invoice status, ends with
final status "completed", not "pending_review": the `hasattr` test for
`requires_manual_review` on the approval stage's `ProcessingResult` never
succeeds. -/
theorem manual_review_run_completes :
    (make_approval_decision c3_factors).decision = DecisionKind.manual_review ∧
    (make_approval_decision c3_factors).requires_manual_review = true ∧
    (apply_approval_decision c3_invoice (make_approval_decision c3_factors)).processing_status
      = ProcessingStatus.validated ∧
    determine_workflow_status 0
      (some (apply_approval_decision c3_invoice (make_approval_decision c3_factors)))
      (some c3_approval_result) = "completed" := by
  have hc : evaluate_confidence c3_factors = ⟨true, false⟩ := by
    rw [evaluate_confidence]
    norm_num [c3_factors, AUTO_APPROVE_THRESHOLD, VALIDATION_THRESHOLD]
  have h0 : check_critical_errors c3_factors = [] := by
    simp [check_critical_errors, c3_factors]
  have h2 : evaluate_compliance c3_factors = ⟨true, [], []⟩ := by
    simp [evaluate_compliance, c3_factors]
  have h3 : check_approval_authority c3_factors = ⟨true, "manager", "manager"⟩ := by
    simp [check_approval_authority, c3_factors]
  have hd : (make_approval_decision c3_factors).decision = DecisionKind.manual_review ∧
      (make_approval_decision c3_factors).requires_manual_review = true := by
    constructor <;> simp [make_approval_decision, hc, h0, h2, h3]
  have happ :
      (apply_approval_decision c3_invoice (make_approval_decision c3_factors)).processing_status
        = ProcessingStatus.validated := by
    rw [apply_approval_decision, hd.1]
    simp [c3_invoice]
  refine ⟨hd.1, hd.2, happ, ?_⟩
  rw [determine_workflow_status]
  simp [happ, hasattr_requires_manual_review_false]

/-- The slice of the mutable run context that the repository's only skip
condition reads: the data-extraction stage's recorded result
(`context.get("data_extraction_result")`), when present.  A
`ProcessingResult` always has a `confidence_score` attribute, so the
source's `hasattr` guard is equivalent to presence of the result. -/
structure WorkflowContext where
  data_extraction_result : Option ProcessingResult
deriving DecidableEq, Repr

/-- Embedding of `WorkflowManager._check_high_confidence`
(`src/orchestrator/workflow_manager.py:101-106`): true exactly when a
data-extraction result is recorded and its confidence score is at least
0.95. -/
def check_high_confidence (context : WorkflowContext) : Bool :=
  match context.data_extraction_result with
  | some extraction_result => decide (95/100 ≤ extraction_result.confidence_score)
  | none => false

/-- Embedding of `WorkflowStep` (`src/orchestrator/workflow_manager.py:25-38`). -/
structure WorkflowStep where
  agent_name : String
  required : Bool := true
  condition : Option (WorkflowContext → Bool) := none

/-- Embedding of `WorkflowStep.should_execute`
(`src/orchestrator/workflow_manager.py:34-38`): the value of the condition
when there is one, otherwise `true`. -/
def should_execute (step : WorkflowStep) (context : WorkflowContext) : Bool :=
  match step.condition with
  | some condition => condition context
  | none => true

/-- The validation step of the built-in `fast_track` workflow
(`src/orchestrator/workflow_manager.py:74`): optional, guarded by the
high-confidence condition. -/
def fast_track_validation_step : WorkflowStep :=
  ⟨"validation", false, some check_high_confidence⟩

/-- Built-in `standard` workflow (`_define_workflows`). -/
def standard_steps : List WorkflowStep :=
  [⟨"document_parser", true, none⟩,
   ⟨"data_extraction", true, none⟩,
   ⟨"validation", true, none⟩,
   ⟨"regional_compliance", true, none⟩,
   ⟨"approval", true, none⟩,
   ⟨"audit", false, none⟩]

/-- Built-in `fast_track` workflow (`_define_workflows`). -/
def fast_track_steps : List WorkflowStep :=
  [⟨"document_parser", true, none⟩,
   ⟨"data_extraction", true, none⟩,
   fast_track_validation_step,
   ⟨"regional_compliance", true, none⟩,
   ⟨"approval", true, none⟩,
   ⟨"audit", false, none⟩]

/-- Built-in `detailed_review` workflow (`_define_workflows`). -/
def detailed_review_steps : List WorkflowStep :=
  [⟨"document_parser", true, none⟩,
   ⟨"data_extraction", true, none⟩,
   ⟨"validation", true, none⟩,
   ⟨"regional_compliance", true, none⟩,
   ⟨"approval", true, none⟩,
   ⟨"audit", true, none⟩]

/-- Built-in `compliance_only` workflow (`_define_workflows`). -/
def compliance_only_steps : List WorkflowStep :=
  [⟨"document_parser", true, none⟩,
   ⟨"data_extraction", true, none⟩,
   ⟨"validation", true, none⟩,
   ⟨"regional_compliance", true, none⟩,
   ⟨"audit", true, none⟩]

/-- Embedding of `WorkflowManager._define_workflows`
(`src/orchestrator/workflow_manager.py:56-99`) as an association list from
workflow name to step list. -/
def define_workflows : List (String × List WorkflowStep) :=
  [("standard", standard_steps),
   ("fast_track", fast_track_steps),
   ("detailed_review", detailed_review_steps),
   ("compliance_only", compliance_only_steps)]

/-- C1: in the `fast_track` workflow the validation step EXECUTES exactly
when the recorded extraction confidence is at least 0.95 (at 0.96 and at the
boundary 0.95 `should_execute` is true) and is SKIPPED when the confidence
is below 0.95 or no extraction result is recorded — the exact inverse of the
claimed behaviour, because `should_execute` returns the raw value of the
high-confidence condition instead of its negation. -/
theorem fast_track_validation_runs_on_high_confidence :
    should_execute fast_track_validation_step
      ⟨some { confidence_score := 96/100 }⟩ = true ∧
    should_execute fast_track_validation_step
      ⟨some { confidence_score := 95/100 }⟩ = true ∧
    should_execute fast_track_validation_step
      ⟨some { confidence_score := 1/2 }⟩ = false ∧
    should_execute fast_track_validation_step ⟨none⟩ = false := by
  refine ⟨?_, ?_, ?_, ?_⟩ <;>
    · rw [should_execute, fast_track_validation_step]
      norm_num [check_high_confidence]

/-- Environment response for one workflow step of a run: the run-context
snapshot the step's skip condition is evaluated against, and what executing
the step does — `Except.error` models an exception raised inside the
per-step try (an unknown agent name, or a throwing executor), `Except.ok`
the returned `ProcessingResult`. -/
structure StepBehavior where
  context : WorkflowContext
  outcome : Except String ProcessingResult

/-- The `workflow_execution` counters of `workflow_result`
(`src/orchestrator/workflow_manager.py:160-165`). -/
structure WorkflowExecution where
  total_steps : Nat
  executed_steps : Nat := 0
  skipped_steps : Nat := 0
  failed_steps : Nat := 0
deriving DecidableEq, Repr

/-- The pieces of `workflow_result` the step loop mutates: counters, the
per-agent results dict (as an association list in insertion order) and the
run-level error list. -/
structure RunAcc where
  execution : WorkflowExecution
  results : List (String × ProcessingResult) := []
  errors : List String := []
deriving DecidableEq, Repr

/-- Embedding of the step loop of `WorkflowManager.execute_workflow`
(`src/orchestrator/workflow_manager.py:172-214`), driven by an environment
`env` giving the behavior of the step at each index.  Returns the final
accumulator and `true` when the loop aborted because a required step failed
(the re-raise caught by the outer handler, which appends the exception text
and sets the failed status).  A step whose result carries errors triggers
the inner raise only when required — it is recorded as a failed step and
aborts; an optional step's exception increments `failed_steps` and appends a
run error but the loop continues. -/
def run_workflow_steps (env : Nat → StepBehavior) :
    List WorkflowStep → Nat → RunAcc → RunAcc × Bool
  | [], _, acc => (acc, false)
  | step :: rest, i, acc =>
    let b := env i
    if should_execute step b.context = false then
      run_workflow_steps env rest (i + 1)
        { acc with execution :=
            { acc.execution with skipped_steps := acc.execution.skipped_steps + 1 } }
    else
      match b.outcome with
      | .error e =>
        let acc := { acc with execution :=
          { acc.execution with failed_steps := acc.execution.failed_steps + 1 } }
        if step.required then
          ({ acc with errors := acc.errors ++
              ["Required workflow step " ++ step.agent_name ++ " failed: " ++ e] }, true)
        else
          run_workflow_steps env rest (i + 1)
            { acc with errors := acc.errors ++
                ["Optional step " ++ step.agent_name ++ " failed: " ++ e] }
      | .ok r =>
        let acc := { acc with
          execution := { acc.execution with
            executed_steps := acc.execution.executed_steps + 1 }
          results := acc.results ++ [(step.agent_name, r)] }
        if r.errors ≠ [] ∧ step.required = true then
          ({ acc with
              execution := { acc.execution with
                failed_steps := acc.execution.failed_steps + 1 }
              errors := acc.errors ++
                ["Required workflow step " ++ step.agent_name ++
                  " failed: Required step " ++ step.agent_name ++ " failed: " ++
                  String.intercalate ", " r.errors] }, true)
        else run_workflow_steps env rest (i + 1) acc

/-- Embedding of `WorkflowManager._collect_workflow_errors`
(`src/orchestrator/workflow_manager.py:284-291`). -/
def collect_workflow_errors (results : List (String × ProcessingResult)) : List String :=
  results.foldl (fun acc p => acc ++ p.2.errors.map (fun e => p.1 ++ ": " ++ e)) []

/-- Embedding of `WorkflowManager._collect_workflow_warnings`
(`src/orchestrator/workflow_manager.py:293-300`). -/
def collect_workflow_warnings (results : List (String × ProcessingResult)) : List String :=
  results.foldl (fun acc p => acc ++ p.2.warnings.map (fun w => p.1 ++ ": " ++ w)) []

/-- The observable slice of the dict returned by `execute_workflow`
(session id, workflow name and wall-clock processing time omitted). -/
structure WorkflowResult where
  status : String
  invoice : Option Invoice
  results : List (String × ProcessingResult)
  errors : List String
  warnings : List String
  execution : WorkflowExecution
deriving DecidableEq, Repr

/-- Embedding of `WorkflowManager.execute_workflow`
(`src/orchestrator/workflow_manager.py:108-245`).  `final_invoice` stands
for `context.get("invoice")` after the loop (the context entry written by
the stages).  The `Except` return separates a normal structured return
(`.ok`) from an exception propagating to the caller (`.error`): the lookup
of an unknown workflow name raises a `ValueError` BEFORE the try/except that
guards step execution, so it is the one uncaught path.  On an aborted run
the outer handler sets status "failed" and appends the exception text; the
post-loop finalization (invoice, error/warning collection) is skipped. -/
def execute_workflow (workflows : List (String × List WorkflowStep))
    (workflow_type : String) (env : Nat → StepBehavior)
    (final_invoice : Option Invoice) : Except String WorkflowResult :=
  match workflows.lookup workflow_type with
  | none => .error ("Unknown workflow type: " ++ workflow_type)
  | some workflow_steps =>
    let init : RunAcc := ⟨{ total_steps := workflow_steps.length }, [], []⟩
    let (acc, aborted) := run_workflow_steps env workflow_steps 0 init
    if aborted then
      .ok { status := "failed", invoice := none, results := acc.results,
            errors := acc.errors, warnings := [], execution := acc.execution }
    else
      .ok { status := determine_workflow_status acc.execution.failed_steps final_invoice
              (acc.results.lookup "approval")
            invoice := final_invoice
            results := acc.results
            errors := acc.errors ++ collect_workflow_errors acc.results
            warnings := collect_workflow_warnings acc.results
            execution := acc.execution }

/-- Projection used to state run-status facts: the status of a structured
return, or `none` when the invocation raised. -/
def workflow_status_of : Except String WorkflowResult → Option String
  | .ok r => some r.status
  | .error _ => none

/-- C6 counterexample: invoking a run with the unknown workflow name
"nonexistent" raises a ValueError to the caller (the lookup guard sits
before the try/except), rather than returning a structured result with a
populated error list and failed status. -/
theorem unknown_workflow_name_raises :
    execute_workflow define_workflows "nonexistent"
      (fun _ => ⟨⟨none⟩, Except.ok {}⟩) none =
      Except.error "Unknown workflow type: nonexistent" := by
  rfl

/-- C6 amended: for a registered workflow name a run invocation always
returns a structured result — every exception inside the step loop is caught
and surfaces as a failed status with populated errors — but an unknown
workflow name raises a ValueError synchronously, before any step executes,
instead of returning a structured result. -/
theorem execute_workflow_known_name_total (workflows : List (String × List WorkflowStep))
    (workflow_type : String) (env : Nat → StepBehavior) (final_invoice : Option Invoice) :
    (∀ steps, workflows.lookup workflow_type = some steps →
      ∃ r, execute_workflow workflows workflow_type env final_invoice = Except.ok r) ∧
    (workflows.lookup workflow_type = none →
      execute_workflow workflows workflow_type env final_invoice =
        Except.error ("Unknown workflow type: " ++ workflow_type)) := by
  constructor
  · intro steps hl
    simp only [execute_workflow, hl]
    cases hrun : run_workflow_steps env steps 0 ⟨{ total_steps := steps.length }, [], []⟩ with
    | mk acc aborted =>
      cases aborted
      · exact ⟨_, rfl⟩
      · exact ⟨_, rfl⟩
  · intro hl
    simp only [execute_workflow, hl]

/-- Witness for the amended C6 theorem: a run of the registered `standard`
workflow with clean step behaviors returns a structured result. -/
theorem execute_workflow_known_name_total_witness :
    ∃ r, execute_workflow define_workflows "standard"
        (fun _ => ⟨⟨none⟩, Except.ok {}⟩) none = Except.ok r :=
  (execute_workflow_known_name_total define_workflows "standard"
      (fun _ => ⟨⟨none⟩, Except.ok {}⟩) none).1 standard_steps rfl

/-- Behaviors of the C5 counterexample run of the `standard` workflow: the
five required steps return clean results; the optional audit step (index 5)
raises — the exception text matches the `ValueError` for a missing agent
registration. -/
def c5_env : Nat → StepBehavior := fun i =>
  if i = 5 then ⟨⟨none⟩, Except.error "Agent audit not found"⟩
  else ⟨⟨none⟩, Except.ok {}⟩

/-- C5 counterexample: in a `standard` run where every required step
succeeds with a clean result and no invoice is produced (so no terminal
domain status), the optional audit step's exception makes
`failed_steps = 1`, and `_determine_workflow_status` then reports "failed"
— the claim's "never failed even if an optional step fails" is violated. -/
theorem optional_step_exception_fails_run :
    workflow_status_of (execute_workflow define_workflows "standard" c5_env none) =
      some "failed" := by
  rfl

/-- Under an environment whose step executions all return results — required
steps with error-free results — the step loop never aborts and never
increments the failed-step counter. -/
theorem run_workflow_steps_clean (env : Nat → StepBehavior) :
    ∀ (l : List WorkflowStep) (i : Nat) (acc : RunAcc),
      (∀ k, (hk : k < l.length) → ∃ r, (env (i + k)).outcome = Except.ok r ∧
        ((l.get ⟨k, hk⟩).required = true → r.errors = [])) →
      (run_workflow_steps env l i acc).2 = false ∧
      (run_workflow_steps env l i acc).1.execution.failed_steps =
        acc.execution.failed_steps
  | [], _, _, _ => ⟨rfl, rfl⟩
  | step :: rest, i, acc, h => by
    obtain ⟨r, hr0, hreq⟩ := h 0 (Nat.succ_pos _)
    have hr : (env i).outcome = Except.ok r := hr0
    have hreq' : step.required = true → r.errors = [] := hreq
    have hrest : ∀ k, (hk : k < rest.length) →
        ∃ r, (env ((i + 1) + k)).outcome = Except.ok r ∧
          ((rest.get ⟨k, hk⟩).required = true → r.errors = []) := by
      intro k hk
      obtain ⟨r', hr', hq'⟩ := h (k + 1) (Nat.succ_lt_succ hk)
      refine ⟨r', ?_, hq'⟩
      rw [show (i + 1) + k = i + (k + 1) from by omega]
      exact hr'
    simp only [run_workflow_steps]
    by_cases hs : should_execute step (env i).context = false
    · rw [if_pos hs]
      exact run_workflow_steps_clean env rest (i + 1) _ hrest
    · rw [if_neg hs, hr]
      have hcond : ¬(r.errors ≠ [] ∧ step.required = true) := by
        rintro ⟨he, hq⟩
        exact he (hreq' hq)
      simp only [if_neg hcond]
      exact run_workflow_steps_clean env rest (i + 1) _ hrest

/-- With no failed step, a non-terminal (or absent) invoice status always
resolves to final status "completed" — the pending-review branch is
unreachable because the `hasattr` test never succeeds. -/
theorem determine_workflow_status_clean (invoice : Option Invoice)
    (approval_result : Option ProcessingResult)
    (hterm : ∀ inv, invoice = some inv →
      inv.processing_status ≠ ProcessingStatus.approved ∧
      inv.processing_status ≠ ProcessingStatus.rejected ∧
      inv.processing_status ≠ ProcessingStatus.error) :
    determine_workflow_status 0 invoice approval_result = "completed" := by
  unfold determine_workflow_status
  cases invoice with
  | none => simp [hasattr_requires_manual_review_false]
  | some inv =>
    obtain ⟨h1, h2, h3⟩ := hterm inv rfl
    cases hst : inv.processing_status <;>
      simp_all [hasattr_requires_manual_review_false]

/-- C5 amended: if every step execution returns a result (no step — required
or optional — raises an executor-level exception), every required step's
result is error-free, and the invoice carries no terminal status, then the
final run status is completed/approved/pending_review and never "failed".
The extra no-exception condition on optional steps is forced: an optional
step that raises increments `failed_steps` and the status becomes
"failed". -/
theorem clean_required_run_never_failed (workflows : List (String × List WorkflowStep))
    (workflow_type : String) (steps : List WorkflowStep) (env : Nat → StepBehavior)
    (final_invoice : Option Invoice)
    (hlook : workflows.lookup workflow_type = some steps)
    (hclean : ∀ k, (hk : k < steps.length) → ∃ r, (env k).outcome = Except.ok r ∧
      ((steps.get ⟨k, hk⟩).required = true → r.errors = []))
    (hterm : ∀ inv, final_invoice = some inv →
      inv.processing_status ≠ ProcessingStatus.approved ∧
      inv.processing_status ≠ ProcessingStatus.rejected ∧
      inv.processing_status ≠ ProcessingStatus.error) :
    workflow_status_of (execute_workflow workflows workflow_type env final_invoice) ≠
      some "failed" ∧
    (workflow_status_of (execute_workflow workflows workflow_type env final_invoice) =
        some "completed" ∨
      workflow_status_of (execute_workflow workflows workflow_type env final_invoice) =
        some "approved" ∨
      workflow_status_of (execute_workflow workflows workflow_type env final_invoice) =
        some "pending_review") := by
  have hc := run_workflow_steps_clean env steps 0
    ⟨{ total_steps := steps.length }, [], []⟩ (by simpa using hclean)
  simp only [execute_workflow, hlook]
  cases hrun : run_workflow_steps env steps 0 ⟨{ total_steps := steps.length }, [], []⟩ with
  | mk acc aborted =>
    rw [hrun] at hc
    obtain ⟨hab, hfail⟩ := hc
    subst hab
    have hzero : acc.execution.failed_steps = 0 := hfail
    have hstatus :
        determine_workflow_status acc.execution.failed_steps final_invoice
          (acc.results.lookup "approval") = "completed" := by
      rw [hzero]
      exact determine_workflow_status_clean final_invoice _ hterm
    simp [workflow_status_of, hstatus]

/-- Witness for the amended C5 theorem: a clean `standard` run with no
invoice ends "completed", not "failed". -/
theorem clean_required_run_never_failed_witness :
    workflow_status_of (execute_workflow define_workflows "standard"
        (fun _ => ⟨⟨none⟩, Except.ok {}⟩) none) ≠ some "failed" ∧
    (workflow_status_of (execute_workflow define_workflows "standard"
        (fun _ => ⟨⟨none⟩, Except.ok {}⟩) none) = some "completed" ∨
      workflow_status_of (execute_workflow define_workflows "standard"
        (fun _ => ⟨⟨none⟩, Except.ok {}⟩) none) = some "approved" ∨
      workflow_status_of (execute_workflow define_workflows "standard"
        (fun _ => ⟨⟨none⟩, Except.ok {}⟩) none) = some "pending_review") :=
  clean_required_run_never_failed define_workflows "standard" standard_steps
    (fun _ => ⟨⟨none⟩, Except.ok {}⟩) none rfl
    (fun _ _ => ⟨{}, rfl, fun _ => rfl⟩)
    (fun _ h => by cases h)

/-- The counting entries of a stage's `processing_stats` dict
(`src/agents/base_agent.py:29-35`); the wall-clock `total_time` and
`average_time` entries are outside the model. -/
structure AgentStats where
  executions : Nat := 0
  successes : Nat := 0
  failures : Nat := 0
deriving DecidableEq, Repr

/-- The attempt loop of `BaseAgent.execute`
(`src/agents/base_agent.py:72-106`): `remaining` attempts are left,
`attempt` is the zero-based index of the next one, `errs` the wrapper
result's accumulated error list, and `proc` gives what `self.process` does
at each attempt index (`.error` an exception, `.ok` a returned result — a
returned `ProcessingResult` object is always truthy).  Returns the first
successful result if any, the accumulated per-attempt error messages, and
the number of invocations of `process`. -/
def try_attempts (proc : Nat → Except String ProcessingResult) :
    Nat → Nat → List String → Option ProcessingResult × List String × Nat
  | 0, _, errs => (none, errs, 0)
  | remaining + 1, attempt, errs =>
    match proc attempt with
    | .ok processing_result => (some processing_result, errs, 1)
    | .error e =>
      let rec_result := try_attempts proc remaining (attempt + 1)
        (errs ++ ["Attempt " ++ toString (attempt + 1) ++ " failed: " ++ e])
      (rec_result.1, rec_result.2.1, rec_result.2.2 + 1)

/-- Embedding of `BaseAgent.execute` (`src/agents/base_agent.py:51-120`):
one call increments `executions` once up front, attempts `process` up to
`max_retries + 1` times, and then increments `successes` (returning the
first returned result, completed-step marker appended) or `failures`
(returning the wrapper result carrying the per-attempt errors and the
started/failed step markers).  The returned `Nat` is the number of
`process` invocations. -/
def BaseAgent.execute (stats : AgentStats) (max_retries : Nat)
    (proc : Nat → Except String ProcessingResult) :
    AgentStats × ProcessingResult × Nat :=
  let stats := { stats with executions := stats.executions + 1 }
  match try_attempts proc (max_retries + 1) 0 [] with
  | (some processing_result, _, n) =>
    ({ stats with successes := stats.successes + 1 },
     { processing_result with processing_steps :=
        processing_result.processing_steps ++ ["execution_completed"] }, n)
  | (none, errs, n) =>
    ({ stats with failures := stats.failures + 1 },
     { confidence_score := 0, errors := errs, warnings := [],
       processing_steps := ["execution_started", "execution_failed"] }, n)

/-- The attempt loop calls `process` at most `remaining` times. -/
theorem try_attempts_count_le (proc : Nat → Except String ProcessingResult) :
    ∀ (remaining attempt : Nat) (errs : List String),
      (try_attempts proc remaining attempt errs).2.2 ≤ remaining
  | 0, _, _ => Nat.le_refl 0
  | remaining + 1, attempt, errs => by
    simp only [try_attempts]
    cases proc attempt with
    | ok r => simp
    | error e =>
      simpa using Nat.succ_le_succ
        (try_attempts_count_le proc remaining (attempt + 1) _)

/-- C7: one call to the execute wrapper invokes `process` at most
`max_retries + 1` times; per call the `executions` counter rises by exactly
one, and exactly one of `successes` or `failures` rises by exactly one
while the other is unchanged, regardless of how many attempts occur. -/
theorem execute_updates_stats_once_per_call (stats : AgentStats) (max_retries : Nat)
    (proc : Nat → Except String ProcessingResult) :
    (BaseAgent.execute stats max_retries proc).2.2 ≤ max_retries + 1 ∧
    (BaseAgent.execute stats max_retries proc).1.executions = stats.executions + 1 ∧
    (((BaseAgent.execute stats max_retries proc).1.successes = stats.successes + 1 ∧
      (BaseAgent.execute stats max_retries proc).1.failures = stats.failures) ∨
     ((BaseAgent.execute stats max_retries proc).1.failures = stats.failures + 1 ∧
      (BaseAgent.execute stats max_retries proc).1.successes = stats.successes)) := by
  have hn := try_attempts_count_le proc (max_retries + 1) 0 []
  simp only [BaseAgent.execute]
  cases h : try_attempts proc (max_retries + 1) 0 [] with
  | mk res rest =>
    rw [h] at hn
    cases rest with
    | mk errs n =>
      cases res with
      | some r => exact ⟨hn, rfl, Or.inl ⟨rfl, rfl⟩⟩
      | none => exact ⟨hn, rfl, Or.inr ⟨rfl, rfl⟩⟩

/-- The six registered stage names
(`AgentCoordinator._initialize_agents` / `AGENT_CONFIGS`); `documentParser`
stands for the stage registered as "document_parser". -/
inductive AgentName where
  | documentParser
  | data_extraction
  | validation
  | regional_compliance
  | approval
  | audit
deriving DecidableEq, Repr

/-- The per-run data a stage's status write can depend on:
`invoice_found = false` models the raising path of a stage's try block (no
invoice in input or context), on which no status assignment is reached; the
check lists are what `_validate_invoice` / `_check_compliance` produced; the
approval factors are what `_gather_approval_factors` collected. -/
structure StageRunData where
  invoice_found : Bool
  validation_results : List Check
  compliance_results : List Check
  approval_factors : ApprovalFactors
deriving DecidableEq, Repr

/-- The processing status each stage assigns to the invoice on run data `d`,
or `none` when it leaves the status untouched.  Validation
(`src/agents/validation_agent.py:70-79`) writes `validated` at score ≥ 0.9,
`validated` again at score ≥ 0.7 and `error` below; compliance
(`src/agents/regional_compliance_agent.py:82-88`) writes `error` below
score 0.7 and nothing otherwise; approval applies its decision
(`_apply_approval_decision`, `src/agents/approval_agent.py:344-358`);
the parser, extraction and audit stages never assign
`invoice.processing_status` (extraction constructs the invoice with the
constructor default `pending` and audit only reads the status). -/
def stage_status_write (agent : AgentName) (d : StageRunData) : Option ProcessingStatus :=
  if d.invoice_found = false then none
  else
    match agent with
    | .validation =>
      let validation_score := calculate_validation_score d.validation_results
      if 9/10 ≤ validation_score then some ProcessingStatus.validated
      else if 7/10 ≤ validation_score then some ProcessingStatus.validated
      else some ProcessingStatus.error
    | .regional_compliance =>
      let compliance_score := calculate_compliance_score d.compliance_results
      if 9/10 ≤ compliance_score then none
      else if 7/10 ≤ compliance_score then none
      else some ProcessingStatus.error
    | .approval =>
      match (make_approval_decision d.approval_factors).decision with
      | .approved => some ProcessingStatus.approved
      | .rejected => some ProcessingStatus.rejected
      | .manual_review => none
    | _ => none

/-- Approval factors with no signal at all: full confidence, empty check
lists, no authority requirement. -/
def trivial_factors : ApprovalFactors :=
  { confidence_score := 1
    processing_status := ProcessingStatus.validated
    validation_results := []
    compliance_results := []
    approval_info := none }

/-- Run data with an all-error check list for both scoring stages. -/
def all_error_run_data : StageRunData :=
  { invoice_found := true
    validation_results := [⟨.error, .high, "bad"⟩]
    compliance_results := [⟨.error, .high, "bad"⟩]
    approval_factors := trivial_factors }

/-- C10: over all stages and run data, only the approval stage ever sets
`approved` or `rejected`, only the validation stage ever sets `validated`,
and `error` is set only by the validation and compliance stages — and
genuinely by both of them (witnessed by an all-error check list). -/
theorem status_write_discipline :
    (∀ (a : AgentName) (d : StageRunData),
      (stage_status_write a d = some ProcessingStatus.approved →
        a = AgentName.approval) ∧
      (stage_status_write a d = some ProcessingStatus.rejected →
        a = AgentName.approval) ∧
      (stage_status_write a d = some ProcessingStatus.validated →
        a = AgentName.validation) ∧
      (stage_status_write a d = some ProcessingStatus.error →
        a = AgentName.validation ∨ a = AgentName.regional_compliance)) ∧
    stage_status_write AgentName.validation all_error_run_data =
      some ProcessingStatus.error ∧
    stage_status_write AgentName.regional_compliance all_error_run_data =
      some ProcessingStatus.error := by
  refine ⟨fun a d => ?_, ?_, ?_⟩
  · by_cases hf : d.invoice_found = false
    · simp [stage_status_write, hf]
    · cases a with
      | validation =>
        simp only [stage_status_write, hf, if_false]
        split_ifs <;> simp
      | regional_compliance =>
        simp only [stage_status_write, hf, if_false]
        split_ifs <;> simp
      | approval =>
        simp only [stage_status_write, hf, if_false]
        rcases hdec : (make_approval_decision d.approval_factors).decision <;> simp [hdec]
      | documentParser => simp [stage_status_write, hf]
      | data_extraction => simp [stage_status_write, hf]
      | audit => simp [stage_status_write, hf]
  · have hscore : calculate_validation_score [⟨.error, .high, "bad"⟩] = 0 := by
      rw [calculate_validation_score_ne_nil (by simp)]
      norm_num [severityWeight, statusFactor, List.sum_cons]
    norm_num [stage_status_write, all_error_run_data, hscore]
  · have hscore : calculate_compliance_score [⟨.error, .high, "bad"⟩] = 0 := by
      rw [calculate_compliance_score_ne_nil (by simp)]
      norm_num [complianceWeight, complianceContrib, severityWeight, statusFactor,
        List.sum_cons]
    norm_num [stage_status_write, all_error_run_data, hscore]

/-- Witness for the C10 theorem: an approval decision that approves yields
an `approved` status write, and the theorem pins that write to the approval
stage. -/
theorem status_write_discipline_witness :
    stage_status_write AgentName.approval ⟨true, [], [], trivial_factors⟩ =
      some ProcessingStatus.approved ∧
    AgentName.approval = AgentName.approval := by
  have hc : evaluate_confidence trivial_factors = ⟨true, false⟩ := by
    rw [evaluate_confidence]
    norm_num [trivial_factors, AUTO_APPROVE_THRESHOLD, VALIDATION_THRESHOLD]
  have h0 : check_critical_errors trivial_factors = [] := by
    simp [check_critical_errors, trivial_factors]
  have h2 : evaluate_compliance trivial_factors = ⟨true, [], []⟩ := by
    simp [evaluate_compliance, trivial_factors]
  have h3 : check_approval_authority trivial_factors = ⟨false, "auto", "system"⟩ := by
    simp [check_approval_authority, trivial_factors]
  have h4 : evaluate_validation trivial_factors = ⟨true, [], false⟩ := by
    simp [evaluate_validation, trivial_factors]
  have hdec : (make_approval_decision trivial_factors).decision = DecisionKind.approved := by
    simp [make_approval_decision, hc, h0, h2, h3, h4]
  have hwrite : stage_status_write AgentName.approval
      ⟨true, [], [], trivial_factors⟩ = some ProcessingStatus.approved := by
    simp [stage_status_write, hdec]
  exact ⟨hwrite,
    (status_write_discipline.1 AgentName.approval ⟨true, [], [], trivial_factors⟩).1 hwrite⟩
